import Mathlib

/-!
Shallow embedding of the `nodejs-threadapi` service: a small Express +
Sequelize blog backend (users, posts, comments) with cookie-JWT
authentication and ownership/admin authorization.

The embedded code is the full API variant (`src/unnamed/part_000`,
referred to below as the API file) together with the Sequelize models of
`src/database.mjs`.  The second, reduced variant (`src/unnamed/part_001`)
differs only in response message text and in lacking the comment/delete
routes; where a difference matters it is noted at the relevant
definition.

External libraries (`bcrypt`, `jsonwebtoken`) are modelled by explicit
Lean functions reflecting their documented behaviour; persistence is an
explicit in-memory store threaded through the handlers.
-/

namespace ThreadApi

/-- A password value as stored in the database.  `bcrypt` hashes are
syntactically distinct from clear text (a salted `$2b$10$...` digest), so
the model keeps the two apart by constructor; `hashed p` stands for
`bcrypt.hashSync(p, 10)`. -/
inductive PasswordValue where
  | clear (s : String)
  | hashed (s : String)
deriving DecidableEq

/-- Model of `bcrypt.hashSync(clear, 10)` (synchronous: the result is
available before the call returns). -/
def bcryptHashSync (clear : String) : PasswordValue :=
  PasswordValue.hashed clear

/-- Model of `bcrypt.compareSync(candidate, stored)`: succeeds exactly when
`stored` is a bcrypt hash of `candidate`; comparing against a value that is
not a bcrypt digest fails. -/
def bcryptCompareSync (candidate : String) (stored : PasswordValue) : Bool :=
  match stored with
  | PasswordValue.hashed s => candidate == s
  | PasswordValue.clear _ => false

/-- Scalar JSON values appearing in this API's response objects. -/
inductive JScalar where
  | snull
  | sstr (s : String)
  | snat (n : Nat)
deriving DecidableEq

/-- JSON response bodies produced by the API: `null` (from
`res.json(null)`), an object with scalar fields, or an array of such
objects. -/
inductive JVal where
  | jnull
  | jobj (fields : List (String × JScalar))
  | jarr (xs : List (List (String × JScalar)))
deriving DecidableEq

/-- An HTTP response: status code plus JSON body. -/
structure Resp where
  status : Nat
  body : JVal
deriving DecidableEq

/-- Body `{ message: s }`. -/
def jmsg (s : String) : JVal :=
  JVal.jobj [("message", JScalar.sstr s)]

/-- Body `{ error: s }`. -/
def jerr (s : String) : JVal :=
  JVal.jobj [("error", JScalar.sstr s)]

/-- Render an optional string column (`NULL` when absent). -/
def jstrOpt : Option String → JScalar
  | none => JScalar.snull
  | some s => JScalar.sstr s

/-- A persisted `User` row (`database.mjs`): `username`, unique `email`,
and `password` stored through the hashing setter.  The model defines no
`isAdmin` column; the delete handlers nevertheless read
`req.user.isAdmin`, which is `undefined` (falsy) on every persisted row.
The field below models the value that read yields, so it is `false` for
every row the database code can create. -/
structure UserRec where
  id : Nat
  username : String
  email : String
  password : PasswordValue
  isAdmin : Bool
deriving DecidableEq

/-- A persisted `Post` row: `title`, `content` (nullable TEXT columns) and
the `UserId` foreign key added by `Post.belongsTo(User)`. -/
structure PostRec where
  id : Nat
  title : Option String
  content : Option String
  userId : Nat
deriving DecidableEq

/-- A persisted `Commentaire` row: `title`, `content`, plus the `UserId`
and `PostId` foreign keys from `belongsTo`. -/
structure CommentRec where
  id : Nat
  title : Option String
  content : Option String
  userId : Nat
  postId : Nat
deriving DecidableEq

/-- The database state: the three tables plus their auto-increment
counters. -/
structure Store where
  users : List UserRec
  posts : List PostRec
  comments : List CommentRec
  nextUserId : Nat
  nextPostId : Nat
  nextCommentId : Nat
deriving DecidableEq

/-- `User.findByPk(id)`. -/
def findUserByPk (s : Store) (id : Nat) : Option UserRec :=
  s.users.find? (fun u => u.id == id)

/-- `User.findOne({ where: { email } })`. -/
def findUserByEmail (s : Store) (email : String) : Option UserRec :=
  s.users.find? (fun u => u.email == email)

/-- `Post.findByPk(id)`. -/
def findPostByPk (s : Store) (id : Nat) : Option PostRec :=
  s.posts.find? (fun p => p.id == id)

/-- `Commentaire.findByPk(id)`. -/
def findCommentByPk (s : Store) (id : Nat) : Option CommentRec :=
  s.comments.find? (fun c => c.id == id)

/-- `email.trim().toLowerCase()`: strip leading/trailing whitespace, then
lowercase (written over the character list so that the kernel can
evaluate it). -/
def normalizeEmail (s : String) : String :=
  ⟨((s.data.dropWhile Char.isWhitespace).reverse.dropWhile Char.isWhitespace).reverse.map
    Char.toLower⟩

/-- JavaScript truthiness of an optional string field: absent (`undefined`)
and the empty string are both falsy. -/
def strPresent : Option String → Bool
  | none => false
  | some s => s != ""

/-- JavaScript truthiness of an optional numeric field: absent and `0` are
falsy. -/
def natPresent : Option Nat → Bool
  | none => false
  | some n => n != 0

/-- The JWT payload signed by login: `{ userId: user.id }` — it has exactly
this one claim. -/
structure JwtPayload where
  userId : Nat
deriving DecidableEq

/-- A signed token as the cookie carries it: the payload, the absolute
expiry timestamp (seconds) derived from `expiresIn`, and the secret that
signed it (standing for the signature: verification succeeds only with
the same secret). -/
structure Token where
  payload : JwtPayload
  exp : Nat
  secret : String
deriving DecidableEq

/-- Model of `jwt.sign(payload, secret, { expiresIn })` at current time
`now`: `jsonwebtoken` throws (`secretOrPrivateKey must have a value`)
when the secret is missing, hence `none`; otherwise the token expires at
`now + expSeconds`. -/
def jwtSignSync (payload : JwtPayload) (secret : Option String) (expSeconds now : Nat) :
    Option Token :=
  match secret with
  | none => none
  | some s => some { payload := payload, exp := now + expSeconds, secret := s }

/-- Model of `jwt.verify(token, secret)` at current time `now`:
`jsonwebtoken` throws when the secret is missing, when the signature does
not match, or when `now` has reached `exp` (`TokenExpiredError` fires at
`clockTimestamp >= exp`); on success it returns the decoded payload. -/
def jwtVerifySync (tok : Token) (secret : Option String) (now : Nat) : Option JwtPayload :=
  match secret with
  | none => none
  | some s => if tok.secret = s ∧ now < tok.exp then some tok.payload else none

/-- Identity attached to the request by the middleware: `req.userId` and
`req.user`. -/
structure AuthCtx where
  userId : Nat
  user : UserRec
deriving DecidableEq

/-- The `isLoggedInJWT(User, JWT_SECRET)` middleware (API file): no
`token` cookie → 401; `jwt.verify` failure (bad signature, expired, or
missing secret) is caught → 401; unknown user id → 401; the explicit
`if (!JWT_SECRET) throw` after verification is likewise caught → the same
401 as a verify failure; otherwise identity is attached and control
passes on. -/
def isLoggedInJWT (s : Store) (secret : Option String) (cookieToken : Option Token)
    (now : Nat) : Except Resp AuthCtx :=
  match cookieToken with
  | none => Except.error ⟨401, jmsg "Accès refusé : aucun token trouvé"⟩
  | some tok =>
    match jwtVerifySync tok secret now with
    | none => Except.error ⟨401, jmsg "Accès refusé : token invalide ou expiré"⟩
    | some decoded =>
      match findUserByPk s decoded.userId with
      | none => Except.error ⟨401, jmsg "Accès refusé : utilisateur non trouvé"⟩
      | some user =>
        match secret with
        | none => Except.error ⟨401, jmsg "Accès refusé : token invalide ou expiré"⟩
        | some _ => Except.ok ⟨decoded.userId, user⟩

/-- `User.create({ email, username, password })`: the `password` setter of
the model hashes with `bcrypt.hashSync` synchronously, before
`setDataValue` stores the row; a duplicate email violates the unique
constraint (`SequelizeUniqueConstraintError`, the `error` case). -/
def createUser (s : Store) (email username password : String) :
    Except Unit (UserRec × Store) :=
  if s.users.any (fun u => u.email == email) then Except.error ()
  else
    let u : UserRec :=
      { id := s.nextUserId, username := username, email := email
        password := bcryptHashSync password, isAdmin := false }
    Except.ok (u, { s with users := s.users ++ [u], nextUserId := s.nextUserId + 1 })

/-- Request body of `POST /register`. -/
structure RegisterBody where
  username : Option String
  email : Option String
  password : Option String
  verifiedPassword : Option String
deriving DecidableEq

/-- The `POST /register` handler (API file): all four fields required
(400), passwords must match (400), email normalized, user created with
the hashing setter; duplicate email → 409, success → 201 with the new
id. -/
def registerHandler (s : Store) (b : RegisterBody) : Resp × Store :=
  if ¬(strPresent b.email ∧ strPresent b.password ∧
       strPresent b.verifiedPassword ∧ strPresent b.username) then
    (⟨400, jmsg "Les champs email, username, password et verifiedPassword sont requis"⟩, s)
  else if b.password ≠ b.verifiedPassword then
    (⟨400, jmsg "Les mots de passe ne correspondent pas"⟩, s)
  else
    match createUser s (normalizeEmail (b.email.getD "")) (b.username.getD "")
        (b.password.getD "") with
    | Except.error _ => (⟨409, jmsg "Cet email est déjà utilisé"⟩, s)
    | Except.ok (u, s2) =>
      (⟨201, JVal.jobj [("message", JScalar.sstr "Utilisateur créé avec succès"),
                        ("userId", JScalar.snat u.id)]⟩, s2)

/-- The `POST /login` handler (API file): missing fields → 400; unknown
(normalized) email → 401 `Email incorrect`; wrong password → 401
`Mot de passe incorrect`; otherwise a 1-hour token is signed and set as
the `token` cookie (the second component).  If `jwt.sign` throws
(missing secret) the catch block answers 500 and no cookie is set.  The
reduced variant differs only in text: 401 bodies `{message: "Email
invalide"}` and `{msg: "gg mec"}`. -/
def loginHandler (s : Store) (secret : Option String) (emailField passwordField : Option String)
    (now : Nat) : Resp × Option Token :=
  if ¬(strPresent emailField ∧ strPresent passwordField) then
    (⟨400, jmsg "Email et mot de passe requis"⟩, none)
  else
    match findUserByEmail s (normalizeEmail (emailField.getD "")) with
    | none => (⟨401, jmsg "Email incorrect"⟩, none)
    | some user =>
      if ¬ bcryptCompareSync (passwordField.getD "") user.password then
        (⟨401, jmsg "Mot de passe incorrect"⟩, none)
      else
        match jwtSignSync ⟨user.id⟩ secret 3600 now with
        | none =>
          (⟨500, JVal.jobj [("message", JScalar.sstr "Erreur lors de la connexion"),
                            ("error", JScalar.sstr "secretOrPrivateKey must have a value")]⟩,
           none)
        | some tok => (⟨200, jmsg "Connexion réussie"⟩, some tok)

/-- JSON serialization of a `Post` row (`res.json(post)`). -/
def postToFields (p : PostRec) : List (String × JScalar) :=
  [("id", JScalar.snat p.id), ("title", jstrOpt p.title),
   ("content", jstrOpt p.content), ("UserId", JScalar.snat p.userId)]

/-- JSON serialization of a `Commentaire` row. -/
def commentToFields (c : CommentRec) : List (String × JScalar) :=
  [("id", JScalar.snat c.id), ("title", jstrOpt c.title),
   ("content", jstrOpt c.content), ("UserId", JScalar.snat c.userId),
   ("PostId", JScalar.snat c.postId)]

/-- How a stored password value serializes to JSON: a bcrypt hash prints
as its digest text (rendered with the `$2b$10$` marker prefix). -/
def passwordScalar : PasswordValue → JScalar
  | PasswordValue.clear s => JScalar.sstr s
  | PasswordValue.hashed s => JScalar.sstr (String.append "$2b$10$" s)

/-- JSON serialization of a `User` row: Sequelize serializes every
attribute, the stored password hash included. -/
def userToFields (u : UserRec) : List (String × JScalar) :=
  [("id", JScalar.snat u.id), ("username", JScalar.sstr u.username),
   ("email", JScalar.sstr u.email), ("password", passwordScalar u.password)]

/-- The `GET /post/:id` handler (API file): 404 both when the post is
absent and when `post.UserId !== req.userId`; 200 with the post only for
its owner.  No admin override is consulted. -/
def getPostHandler (s : Store) (authUserId : Nat) (id : Nat) : Resp :=
  match findPostByPk s id with
  | none => ⟨404, jerr "Post non trouvé ou accès interdit"⟩
  | some post =>
    if post.userId ≠ authUserId then ⟨404, jerr "Post non trouvé ou accès interdit"⟩
    else ⟨200, JVal.jobj (postToFields post)⟩

/-- Request body of `POST /post`.  A client may also send a `UserId`
field; the handler never reads it, which the model records by carrying it
here untouched. -/
structure PostBody where
  title : Option String
  content : Option String
  bodyUserId : Option Nat
deriving DecidableEq

/-- The `POST /post` handler (API file): creates the post with
`UserId: req.userId` (the authenticated id, never the body's) and returns
the created row. -/
def createPostHandler (s : Store) (authUserId : Nat) (b : PostBody) : Resp × Store :=
  let p : PostRec :=
    { id := s.nextPostId, title := b.title, content := b.content, userId := authUserId }
  (⟨200, JVal.jobj (postToFields p)⟩,
   { s with posts := s.posts ++ [p], nextPostId := s.nextPostId + 1 })

/-- Request body of `POST /posts/:postId/commentaire`; as for posts, a
client-sent `UserId` field is carried but never read. -/
structure CommentBody where
  title : Option String
  content : Option String
  postId : Option Nat
  bodyUserId : Option Nat
deriving DecidableEq

/-- The `POST /posts/:postId/commentaire` handler (API file): a falsy
`postId` in the body → 400; otherwise the comment is created with
`UserId: req.userId` and `PostId: postId` and returned.  The handler
consults `s.posts` nowhere: it performs no check that the referenced post
exists (foreign-key enforcement is the database engine's, outside the
handler and outside this model's scope per the design non-goals). -/
def createCommentHandler (s : Store) (authUserId : Nat) (b : CommentBody) : Resp × Store :=
  if ¬ natPresent b.postId then
    (⟨400, jerr "Le champ postId est obligatoire"⟩, s)
  else
    let c : CommentRec :=
      { id := s.nextCommentId, title := b.title, content := b.content
        userId := authUserId, postId := b.postId.getD 0 }
    (⟨200, JVal.jobj (commentToFields c)⟩,
     { s with comments := s.comments ++ [c], nextCommentId := s.nextCommentId + 1 })

/-- The `GET /user/:id` handler (API file): `res.json(user)` with no
existence check — a missing user serializes as `null` with the default
status 200. -/
def getUserHandler (s : Store) (id : Nat) : Resp :=
  match findUserByPk s id with
  | none => ⟨200, JVal.jnull⟩
  | some u => ⟨200, JVal.jobj (userToFields u)⟩

/-- The `GET /users` handler (API file): every row, fully serialized. -/
def getUsersHandler (s : Store) : Resp :=
  ⟨200, JVal.jarr (s.users.map userToFields)⟩

/-- `post.destroy()`: removes the found row (by primary key). -/
def destroyPost (s : Store) (p : PostRec) : Store :=
  { s with posts := s.posts.filter (fun q => q.id != p.id) }

/-- `commentaire.destroy()`. -/
def destroyComment (s : Store) (c : CommentRec) : Store :=
  { s with comments := s.comments.filter (fun q => q.id != c.id) }

/-- The `DELETE /posts/:postId` handler (API file): absent post → 404;
`post.UserId !== userId && !req.user.isAdmin` → 403 with the store
untouched; owner or admin → the row is destroyed, 200. -/
def deletePostHandler (s : Store) (auth : AuthCtx) (postId : Nat) : Resp × Store :=
  match findPostByPk s postId with
  | none => (⟨404, jerr "Post non trouvé"⟩, s)
  | some post =>
    if post.userId ≠ auth.userId ∧ auth.user.isAdmin = false then
      (⟨403, jerr "Accès refusé : non auteur ni admin"⟩, s)
    else
      (⟨200, jmsg "Post supprimé avec succès"⟩, destroyPost s post)

/-- The `DELETE /comments/:commentId` handler (API file): same structure
as post deletion. -/
def deleteCommentHandler (s : Store) (auth : AuthCtx) (commentId : Nat) : Resp × Store :=
  match findCommentByPk s commentId with
  | none => (⟨404, jerr "Commentaire non trouvé"⟩, s)
  | some commentaire =>
    if commentaire.userId ≠ auth.userId ∧ auth.user.isAdmin = false then
      (⟨403, jerr "Accès refusé : non auteur ni admin"⟩, s)
    else
      (⟨200, jmsg "Commentaire supprimé avec succès"⟩, destroyComment s commentaire)

/-- Whether the response leaves the `token` cookie in place or clears
it. -/
inductive CookieAction where
  | keep
  | clearCookie
deriving DecidableEq

/-- The full `GET /logout` route as wired in the API file: it is declared
after `app.use(isLoggedInJWT(User, JWT_SECRET))`, so the middleware runs
first; only an authenticated request reaches the handler, which clears
the cookie and answers 200. -/
def logoutRoute (s : Store) (secret : Option String) (cookieToken : Option Token)
    (now : Nat) : Resp × CookieAction :=
  match isLoggedInJWT s secret cookieToken now with
  | Except.error r => (r, CookieAction.keep)
  | Except.ok _ => (⟨200, jmsg "Déconnexion réussie"⟩, CookieAction.clearCookie)

/-- The seed user created by `loadSequelize()` (`database.mjs`). -/
def billy : UserRec :=
  { id := 1, username := "Billy", email := "billy@mail.com"
    password := bcryptHashSync "billy123", isAdmin := false }

/-- The seed post created by `billy.createPost(...)`. -/
def billyPost : PostRec :=
  { id := 1, title := some "Faire les courses"
    content := some "ananas, savon, éponge", userId := 1 }

/-- The store right after `loadSequelize()` (`database.mjs`): `sync`
with `force: true` empties the tables, then the seed user Billy and his
post are inserted. -/
def billyStore : Store :=
  { users := [billy], posts := [billyPost], comments := []
    nextUserId := 2, nextPostId := 2, nextCommentId := 1 }

/-- A second registered user, used to exercise the non-owner branches. -/
def mallory : UserRec :=
  { id := 2, username := "Mallory", email := "mallory@mail.com"
    password := bcryptHashSync "pw2", isAdmin := false }

/-- A user record whose `isAdmin` reads as set, used to exercise the
admin-override branches of the delete handlers. -/
def rootAdmin : UserRec :=
  { id := 3, username := "Root", email := "root@mail.com"
    password := bcryptHashSync "pw3", isAdmin := true }

/-- A comment on Billy's post, by Billy. -/
def billyComment : CommentRec :=
  { id := 1, title := some "Re", content := some "ok", userId := 1, postId := 1 }

/-- `billyStore` extended with `mallory`, `rootAdmin` and one comment. -/
def commentStore : Store :=
  { billyStore with
      users := [billy, mallory, rootAdmin]
      comments := [billyComment]
      nextUserId := 4, nextCommentId := 2 }

/-- Deleting the row found by a primary-key lookup makes the same lookup
miss afterwards. -/
lemma find?_filter_id_ne {α : Type} (idf : α → Nat) (l : List α) (p : α) (pid : Nat)
    (h : l.find? (fun q => idf q == pid) = some p) :
    (l.filter (fun q => idf q != idf p)).find? (fun q => idf q == pid) = none := by
  apply List.find?_eq_none.mpr
  intro x hx
  have hmem := List.mem_filter.mp hx
  have hpe : idf p = pid := by simpa using List.find?_some h
  have hne : idf x ≠ idf p := by simpa using hmem.2
  simp only [beq_iff_eq]
  rw [← hpe]
  exact hne

/-- Claim C2: with `JWT_SECRET` absent from the environment the system
fails closed — the authentication middleware answers 401 to every request
to a protected route (whatever cookie it carries), and login never sets a
session cookie. -/
theorem missing_secret_fails_closed (s : Store) (cookieToken : Option Token) (now : Nat)
    (e p : Option String) :
    (∃ r, isLoggedInJWT s none cookieToken now = Except.error r ∧ r.status = 401) ∧
    (loginHandler s none e p now).snd = none := by
  constructor
  · cases cookieToken with
    | none => exact ⟨_, rfl, rfl⟩
    | some tok => exact ⟨_, rfl, rfl⟩
  · unfold loginHandler
    split
    · rfl
    · cases findUserByEmail s (normalizeEmail (e.getD "")) with
      | none => rfl
      | some user =>
        dsimp only
        split
        · rfl
        · rfl

/-- Claim C3: at the concrete login pair — existing email
`billy@mail.com` with a wrong password, versus the unknown email
`ghost@mail.com` — both responses carry status 401 but their bodies
differ (`Mot de passe incorrect` vs `Email incorrect`), so the response
reveals whether the email exists.  (The reduced variant diverges even in
the field key: `{msg: "gg mec"}` vs `{message: "Email invalide"}`.) -/
theorem login_responses_leak_email_existence :
    (loginHandler billyStore (some "s3cret") (some "billy@mail.com") (some "wrongpw") 0).fst.status
      = 401 ∧
    (loginHandler billyStore (some "s3cret") (some "ghost@mail.com") (some "wrongpw") 0).fst.status
      = 401 ∧
    (loginHandler billyStore (some "s3cret") (some "billy@mail.com") (some "wrongpw") 0).fst.body
      ≠ (loginHandler billyStore (some "s3cret") (some "ghost@mail.com") (some "wrongpw") 0).fst.body
    := by
  refine ⟨rfl, rfl, ?_⟩
  decide

/-- Claim C4 (counterexample): `GET /logout` is declared after the
authentication middleware, so a request carrying no token receives 401,
not 200, and its cookie is not cleared — the claim that logout succeeds
without prior authentication is false on this code. -/
theorem logout_requires_auth_counterexample :
    (logoutRoute billyStore (some "s3cret") none 0).fst.status = 401 ∧
    ¬ (logoutRoute billyStore (some "s3cret") none 0).fst.status = 200 ∧
    (logoutRoute billyStore (some "s3cret") none 0).snd = CookieAction.keep := by
  refine ⟨rfl, ?_, rfl⟩
  decide

/-- Claim C4 (amended): `GET /logout` sits behind the authentication
middleware: an authenticated request gets 200 and the cookie cleared,
while a request the middleware rejects gets that same 401 and keeps its
cookie.  The route performs no server-side state change (it neither takes
nor returns a store), so the token itself is not invalidated. -/
theorem logout_behavior_amended (s : Store) (secret : Option String) (tok : Option Token)
    (now : Nat) :
    (∀ ctx, isLoggedInJWT s secret tok now = Except.ok ctx →
      logoutRoute s secret tok now =
        (⟨200, jmsg "Déconnexion réussie"⟩, CookieAction.clearCookie)) ∧
    (∀ r, isLoggedInJWT s secret tok now = Except.error r →
      logoutRoute s secret tok now = (r, CookieAction.keep)) := by
  constructor
  · intro ctx h
    unfold logoutRoute
    rw [h]
  · intro r h
    unfold logoutRoute
    rw [h]

/-- Claim C4 (amended, witness): with Billy's freshly signed token the
logout route answers 200 and clears the cookie; with no token it answers
401 and keeps it. -/
theorem logout_behavior_amended_witness :
    logoutRoute billyStore (some "s3cret") (some ⟨⟨1⟩, 3600, "s3cret"⟩) 10 =
      (⟨200, jmsg "Déconnexion réussie"⟩, CookieAction.clearCookie) ∧
    logoutRoute billyStore (some "s3cret") none 10 =
      (⟨401, jmsg "Accès refusé : aucun token trouvé"⟩, CookieAction.keep) :=
  ⟨(logout_behavior_amended billyStore (some "s3cret") (some ⟨⟨1⟩, 3600, "s3cret"⟩) 10).1
      ⟨1, billy⟩ rfl,
   (logout_behavior_amended billyStore (some "s3cret") none 10).2
      ⟨401, jmsg "Accès refusé : aucun token trouvé"⟩ rfl⟩

/-- Claim C5: an authenticated `GET /post/:id` answers 200 with the post
exactly when the post exists and its owner is the requester; an absent
post and a post owned by someone else both answer the same 404 (the
handler consults no admin flag), and no other status than 200 or 404 is
possible. -/
theorem getPost_owner_only (s : Store) (uid pid : Nat) :
    (findPostByPk s pid = none →
      getPostHandler s uid pid = ⟨404, jerr "Post non trouvé ou accès interdit"⟩) ∧
    (∀ p, findPostByPk s pid = some p → p.userId ≠ uid →
      getPostHandler s uid pid = ⟨404, jerr "Post non trouvé ou accès interdit"⟩) ∧
    (∀ p, findPostByPk s pid = some p → p.userId = uid →
      getPostHandler s uid pid = ⟨200, JVal.jobj (postToFields p)⟩) ∧
    ((getPostHandler s uid pid).status = 200 ∨ (getPostHandler s uid pid).status = 404) := by
  refine ⟨?_, ?_, ?_, ?_⟩
  · intro h
    unfold getPostHandler
    rw [h]
  · intro p h hne
    unfold getPostHandler
    rw [h]
    simp [hne]
  · intro p h heq
    unfold getPostHandler
    rw [h]
    simp [heq]
  · unfold getPostHandler
    cases findPostByPk s pid with
    | none => right; rfl
    | some p =>
      dsimp only
      split
      · right; rfl
      · left; rfl

/-- Claim C5 (witness): Billy reads his own post → 200 with the post;
Mallory reading it, or Billy asking for an absent id, → 404. -/
theorem getPost_owner_only_witness :
    getPostHandler billyStore 1 1 = ⟨200, JVal.jobj (postToFields billyPost)⟩ ∧
    getPostHandler billyStore 2 1 = ⟨404, jerr "Post non trouvé ou accès interdit"⟩ ∧
    getPostHandler billyStore 1 99 = ⟨404, jerr "Post non trouvé ou accès interdit"⟩ :=
  ⟨(getPost_owner_only billyStore 1 1).2.2.1 billyPost rfl rfl,
   (getPost_owner_only billyStore 2 1).2.1 billyPost rfl (by decide),
   (getPost_owner_only billyStore 1 99).1 rfl⟩

/-- Claim C1: deleting a post or a comment answers 404 when the record is
absent; a requester who is neither the record's owner nor flagged admin
gets 403 with the store untouched and the record still found; the owner,
or any requester whose admin flag is set, gets 200 and the record is no
longer found in the resulting store. -/
theorem delete_requires_owner_or_admin (s : Store) (auth : AuthCtx) (pid cid : Nat) :
    (findPostByPk s pid = none →
      deletePostHandler s auth pid = (⟨404, jerr "Post non trouvé"⟩, s)) ∧
    (∀ p, findPostByPk s pid = some p → p.userId ≠ auth.userId → auth.user.isAdmin = false →
      deletePostHandler s auth pid = (⟨403, jerr "Accès refusé : non auteur ni admin"⟩, s) ∧
      findPostByPk (deletePostHandler s auth pid).snd pid = some p) ∧
    (∀ p, findPostByPk s pid = some p → (p.userId = auth.userId ∨ auth.user.isAdmin = true) →
      (deletePostHandler s auth pid).fst = ⟨200, jmsg "Post supprimé avec succès"⟩ ∧
      findPostByPk (deletePostHandler s auth pid).snd pid = none) ∧
    (findCommentByPk s cid = none →
      deleteCommentHandler s auth cid = (⟨404, jerr "Commentaire non trouvé"⟩, s)) ∧
    (∀ c, findCommentByPk s cid = some c → c.userId ≠ auth.userId → auth.user.isAdmin = false →
      deleteCommentHandler s auth cid = (⟨403, jerr "Accès refusé : non auteur ni admin"⟩, s) ∧
      findCommentByPk (deleteCommentHandler s auth cid).snd cid = some c) ∧
    (∀ c, findCommentByPk s cid = some c → (c.userId = auth.userId ∨ auth.user.isAdmin = true) →
      (deleteCommentHandler s auth cid).fst = ⟨200, jmsg "Commentaire supprimé avec succès"⟩ ∧
      findCommentByPk (deleteCommentHandler s auth cid).snd cid = none) := by
  refine ⟨?_, ?_, ?_, ?_, ?_, ?_⟩
  · intro h
    unfold deletePostHandler
    rw [h]
  · intro p h hne hadm
    unfold deletePostHandler
    rw [h]
    dsimp only
    rw [if_pos ⟨hne, hadm⟩]
    exact ⟨rfl, h⟩
  · intro p h hok
    unfold deletePostHandler
    rw [h]
    dsimp only
    rw [if_neg ?_]
    · refine ⟨rfl, ?_⟩
      have h' : s.posts.find? (fun q => q.id == pid) = some p := h
      exact find?_filter_id_ne (fun q => q.id) s.posts p pid h'
    · rintro ⟨hne, hadm⟩
      cases hok with
      | inl he => exact hne he
      | inr ha => rw [hadm] at ha; exact Bool.false_ne_true ha
  · intro h
    unfold deleteCommentHandler
    rw [h]
  · intro c h hne hadm
    unfold deleteCommentHandler
    rw [h]
    dsimp only
    rw [if_pos ⟨hne, hadm⟩]
    exact ⟨rfl, h⟩
  · intro c h hok
    unfold deleteCommentHandler
    rw [h]
    dsimp only
    rw [if_neg ?_]
    · refine ⟨rfl, ?_⟩
      have h' : s.comments.find? (fun q => q.id == cid) = some c := h
      exact find?_filter_id_ne (fun q => q.id) s.comments c cid h'
    · rintro ⟨hne, hadm⟩
      cases hok with
      | inl he => exact hne he
      | inr ha => rw [hadm] at ha; exact Bool.false_ne_true ha

/-- Claim C1 (witness): Mallory cannot delete Billy's post (403, still
readable); Billy deletes his own post (200, gone afterwards); the
admin-flagged requester deletes Billy's comment (200, gone); an unknown
post id answers 404. -/
theorem delete_requires_owner_or_admin_witness :
    (deletePostHandler commentStore ⟨2, mallory⟩ 1 =
        (⟨403, jerr "Accès refusé : non auteur ni admin"⟩, commentStore) ∧
      findPostByPk (deletePostHandler commentStore ⟨2, mallory⟩ 1).snd 1 = some billyPost) ∧
    ((deletePostHandler commentStore ⟨1, billy⟩ 1).fst =
        ⟨200, jmsg "Post supprimé avec succès"⟩ ∧
      findPostByPk (deletePostHandler commentStore ⟨1, billy⟩ 1).snd 1 = none) ∧
    ((deleteCommentHandler commentStore ⟨3, rootAdmin⟩ 1).fst =
        ⟨200, jmsg "Commentaire supprimé avec succès"⟩ ∧
      findCommentByPk (deleteCommentHandler commentStore ⟨3, rootAdmin⟩ 1).snd 1 = none) ∧
    deletePostHandler commentStore ⟨1, billy⟩ 99 = (⟨404, jerr "Post non trouvé"⟩, commentStore)
    :=
  ⟨(delete_requires_owner_or_admin commentStore ⟨2, mallory⟩ 1 1).2.1 billyPost rfl
      (by decide) rfl,
   (delete_requires_owner_or_admin commentStore ⟨1, billy⟩ 1 1).2.2.1 billyPost rfl
      (Or.inl rfl),
   (delete_requires_owner_or_admin commentStore ⟨3, rootAdmin⟩ 1 1).2.2.2.2.2 billyComment rfl
      (Or.inr rfl),
   (delete_requires_owner_or_admin commentStore ⟨1, billy⟩ 99 1).1 rfl⟩

/-- Claim C6: a valid registration (all four fields present and truthy,
password equal to its confirmation, email not yet taken) persists a user
whose stored password is the bcrypt hash of the submitted password —
produced synchronously inside the create, so the persisted value is never
the clear text — and answers 201 with the new id; re-submitting the same
registration afterwards answers 409 and leaves the store unchanged. -/
theorem register_hashes_password_and_conflicts (s : Store) (b : RegisterBody)
    (un em pw : String)
    (hu : b.username = some un) (he : b.email = some em)
    (hp : b.password = some pw) (hv : b.verifiedPassword = some pw)
    (hun : un ≠ "") (hem : em ≠ "") (hpw : pw ≠ "")
    (hfresh : ∀ u ∈ s.users, u.email ≠ normalizeEmail em) :
    ∃ u s2,
      registerHandler s b =
        (⟨201, JVal.jobj [("message", JScalar.sstr "Utilisateur créé avec succès"),
                          ("userId", JScalar.snat u.id)]⟩, s2) ∧
      u ∈ s2.users ∧
      u.password = bcryptHashSync pw ∧
      (∀ c : String, u.password ≠ PasswordValue.clear c) ∧
      (registerHandler s2 b).fst = ⟨409, jmsg "Cet email est déjà utilisé"⟩ ∧
      (registerHandler s2 b).snd = s2 := by
  have hany : s.users.any (fun u => u.email == normalizeEmail em) = false := by
    rw [List.any_eq_false]
    intro u hu'
    simpa using hfresh u hu'
  have hpres : (strPresent b.email ∧ strPresent b.password ∧
      strPresent b.verifiedPassword ∧ strPresent b.username) := by
    rw [hu, he, hp, hv]
    simp [strPresent, hun, hem, hpw]
  refine ⟨{ id := s.nextUserId, username := un, email := normalizeEmail em
            password := bcryptHashSync pw, isAdmin := false },
          { s with users := s.users ++ [{ id := s.nextUserId, username := un
                                          email := normalizeEmail em
                                          password := bcryptHashSync pw, isAdmin := false }]
                   nextUserId := s.nextUserId + 1 },
          ?_, ?_, rfl, ?_, ?_, ?_⟩
  · unfold registerHandler
    rw [if_neg (by exact fun hc => hc hpres)]
    rw [if_neg (by rw [hp, hv]; exact fun hc => hc rfl)]
    rw [he, hu, hp]
    unfold createUser
    simp [hany]
  · simp
  · intro c h
    exact PasswordValue.noConfusion h
  · unfold registerHandler
    rw [if_neg (by exact fun hc => hc hpres)]
    rw [if_neg (by rw [hp, hv]; exact fun hc => hc rfl)]
    rw [he]
    unfold createUser
    simp
  · unfold registerHandler
    rw [if_neg (by exact fun hc => hc hpres)]
    rw [if_neg (by rw [hp, hv]; exact fun hc => hc rfl)]
    rw [he]
    unfold createUser
    simp

/-- Claim C6 (witness): registering Alice on the seed store stores a
bcrypt hash, and registering her again conflicts with 409. -/
theorem register_hashes_password_and_conflicts_witness :
    ∃ u s2,
      registerHandler billyStore ⟨some "alice", some " Alice@x.com", some "pw1", some "pw1"⟩ =
        (⟨201, JVal.jobj [("message", JScalar.sstr "Utilisateur créé avec succès"),
                          ("userId", JScalar.snat u.id)]⟩, s2) ∧
      u ∈ s2.users ∧
      u.password = bcryptHashSync "pw1" ∧
      (∀ c : String, u.password ≠ PasswordValue.clear c) ∧
      (registerHandler s2 ⟨some "alice", some " Alice@x.com", some "pw1", some "pw1"⟩).fst =
        ⟨409, jmsg "Cet email est déjà utilisé"⟩ ∧
      (registerHandler s2 ⟨some "alice", some " Alice@x.com", some "pw1", some "pw1"⟩).snd = s2
    :=
  register_hashes_password_and_conflicts billyStore
    ⟨some "alice", some " Alice@x.com", some "pw1", some "pw1"⟩
    "alice" " Alice@x.com" "pw1" rfl rfl rfl rfl
    (by decide) (by decide) (by decide) (by decide)

/-- Claim C7: the rows created by `POST /post` and by
`POST /posts/:postId/commentaire` carry `UserId` equal to the
authenticated requester's id from the verified token — whatever `UserId`
the client put in the body (the handlers never read it) — and the created
row is what the response returns. -/
theorem create_sets_owner_from_token (s : Store) (uid : Nat) (pb : PostBody)
    (cb : CommentBody) (pid : Nat) (hpid : cb.postId = some pid) (hpid0 : pid ≠ 0) :
    (∃ p s2, createPostHandler s uid pb = (⟨200, JVal.jobj (postToFields p)⟩, s2) ∧
      p ∈ s2.posts ∧ p.userId = uid) ∧
    (∃ c s2, createCommentHandler s uid cb = (⟨200, JVal.jobj (commentToFields c)⟩, s2) ∧
      c ∈ s2.comments ∧ c.userId = uid) := by
  constructor
  · refine ⟨{ id := s.nextPostId, title := pb.title, content := pb.content, userId := uid },
            _, rfl, ?_, rfl⟩
    simp [createPostHandler]
  · have hnp : natPresent cb.postId = true := by
      rw [hpid]
      simpa [natPresent] using hpid0
    refine ⟨{ id := s.nextCommentId, title := cb.title, content := cb.content
              userId := uid, postId := pid },
            { s with
                comments := s.comments ++
                  [{ id := s.nextCommentId, title := cb.title, content := cb.content
                     userId := uid, postId := pid }],
                nextCommentId := s.nextCommentId + 1 },
            ?_, ?_, rfl⟩
    · unfold createCommentHandler
      rw [if_neg (by simp [hnp]), hpid]
      rfl
    · simp

/-- Claim C7 (witness): Billy creates a post and a comment while the
bodies carry a foreign `UserId: 42`; both created rows are owned by
Billy. -/
theorem create_sets_owner_from_token_witness :
    (∃ p s2, createPostHandler billyStore 1 ⟨some "t", some "c", some 42⟩ =
        (⟨200, JVal.jobj (postToFields p)⟩, s2) ∧ p ∈ s2.posts ∧ p.userId = 1) ∧
    (∃ c s2, createCommentHandler billyStore 1 ⟨some "t", some "c", some 1, some 42⟩ =
        (⟨200, JVal.jobj (commentToFields c)⟩, s2) ∧ c ∈ s2.comments ∧ c.userId = 1) :=
  create_sets_owner_from_token billyStore 1 ⟨some "t", some "c", some 42⟩
    ⟨some "t", some "c", some 1, some 42⟩ 1 rfl (by decide)

/-- Claim C8: a successful login at time `T` issues a token whose payload
is exactly `{userId: user.id}` (the `JwtPayload` type has that single
claim) expiring at `T + 3600` seconds; the middleware authenticates that
token at every time before `T + 3600` and answers 401 (`token invalide ou
expiré`) at `T + 3600` and after. -/
theorem token_one_hour_lifetime (s : Store) (secret e pw : String) (u : UserRec) (T t : Nat)
    (he : e ≠ "") (hpw : pw ≠ "")
    (hfind : findUserByEmail s (normalizeEmail e) = some u)
    (hpass : u.password = bcryptHashSync pw)
    (hupk : findUserByPk s u.id = some u) :
    ∃ tok,
      loginHandler s (some secret) (some e) (some pw) T =
        (⟨200, jmsg "Connexion réussie"⟩, some tok) ∧
      tok.payload = ⟨u.id⟩ ∧ tok.exp = T + 3600 ∧
      (t < T + 3600 → isLoggedInJWT s (some secret) (some tok) t = Except.ok ⟨u.id, u⟩) ∧
      (T + 3600 ≤ t → isLoggedInJWT s (some secret) (some tok) t =
        Except.error ⟨401, jmsg "Accès refusé : token invalide ou expiré"⟩) := by
  refine ⟨{ payload := ⟨u.id⟩, exp := T + 3600, secret := secret }, ?_, rfl, rfl, ?_, ?_⟩
  · unfold loginHandler
    rw [if_neg (by simp [strPresent, he, hpw])]
    dsimp only [Option.getD]
    rw [hfind]
    dsimp only
    rw [if_neg (by simp [bcryptCompareSync, hpass, bcryptHashSync])]
    rfl
  · intro hlt
    unfold isLoggedInJWT jwtVerifySync
    dsimp only
    rw [if_pos ⟨rfl, hlt⟩]
    dsimp only
    rw [hupk]
  · intro hge
    unfold isLoggedInJWT jwtVerifySync
    dsimp only
    rw [if_neg ?_]
    · rintro ⟨-, hlt⟩
      exact absurd hlt (not_lt.mpr hge)

/-- Claim C8 (witness): Billy logs in at `T = 0`; the token authenticates
at `t = 1800` and is rejected at `t = 5000`. -/
theorem token_one_hour_lifetime_witness :
    (∃ tok,
      loginHandler billyStore (some "s3cret") (some "billy@mail.com") (some "billy123") 0 =
        (⟨200, jmsg "Connexion réussie"⟩, some tok) ∧
      tok.payload = ⟨1⟩ ∧ tok.exp = 0 + 3600 ∧
      isLoggedInJWT billyStore (some "s3cret") (some tok) 1800 = Except.ok ⟨1, billy⟩) ∧
    (∃ tok,
      loginHandler billyStore (some "s3cret") (some "billy@mail.com") (some "billy123") 0 =
        (⟨200, jmsg "Connexion réussie"⟩, some tok) ∧
      isLoggedInJWT billyStore (some "s3cret") (some tok) 5000 =
        Except.error ⟨401, jmsg "Accès refusé : token invalide ou expiré"⟩) := by
  obtain ⟨tok, h1, hp, hexp, hacc, -⟩ :=
    token_one_hour_lifetime billyStore "s3cret" "billy@mail.com" "billy123" billy 0 1800
      (by decide) (by decide) rfl rfl rfl
  obtain ⟨tok2, h2, -, -, -, hrej⟩ :=
    token_one_hour_lifetime billyStore "s3cret" "billy@mail.com" "billy123" billy 0 5000
      (by decide) (by decide) rfl rfl rfl
  exact ⟨⟨tok, h1, hp, hexp, hacc (by decide)⟩, ⟨tok2, h2, hrej (by decide)⟩⟩

/-- Claim C9: comment creation answers 400 when the body's `postId` is
falsy; when `postId` is present the handler creates the comment without
consulting the posts table at all — in particular it succeeds with 200
even when no post with that id exists in the store. -/
theorem comment_create_postId_validation (s : Store) (uid : Nat) (cb : CommentBody)
    (pid : Nat) :
    (natPresent cb.postId = false →
      createCommentHandler s uid cb = (⟨400, jerr "Le champ postId est obligatoire"⟩, s)) ∧
    (cb.postId = some pid → pid ≠ 0 → (∀ p ∈ s.posts, p.id ≠ pid) →
      ∃ c s2, createCommentHandler s uid cb = (⟨200, JVal.jobj (commentToFields c)⟩, s2) ∧
        c ∈ s2.comments ∧ c.postId = pid) := by
  constructor
  · intro h
    unfold createCommentHandler
    rw [if_pos (by simp [h])]
  · intro hpid hpid0 _
    have hnp : natPresent cb.postId = true := by
      rw [hpid]
      simpa [natPresent] using hpid0
    refine ⟨{ id := s.nextCommentId, title := cb.title, content := cb.content
              userId := uid, postId := pid },
            { s with
                comments := s.comments ++
                  [{ id := s.nextCommentId, title := cb.title, content := cb.content
                     userId := uid, postId := pid }],
                nextCommentId := s.nextCommentId + 1 },
            ?_, ?_, rfl⟩
    · unfold createCommentHandler
      rw [if_neg (by simp [hnp]), hpid]
      rfl
    · simp

/-- Claim C9 (witness): a body without `postId` answers 400 on the seed
store; a body referencing the nonexistent post 77 still creates the
comment. -/
theorem comment_create_postId_validation_witness :
    createCommentHandler billyStore 1 ⟨some "t", some "c", none, none⟩ =
      (⟨400, jerr "Le champ postId est obligatoire"⟩, billyStore) ∧
    (∃ c s2, createCommentHandler billyStore 1 ⟨some "t", some "c", some 77, none⟩ =
        (⟨200, JVal.jobj (commentToFields c)⟩, s2) ∧ c ∈ s2.comments ∧ c.postId = 77) :=
  ⟨(comment_create_postId_validation billyStore 1 ⟨some "t", some "c", none, none⟩ 77).1 rfl,
   (comment_create_postId_validation billyStore 1 ⟨some "t", some "c", some 77, none⟩ 77).2
      rfl (by decide) (by decide)⟩

/-- Claim C10: `GET /users` answers 200 with one serialized row per
stored user, each row exposing the persisted password value under its
`password` field; `GET /user/:id` for an id matching no user answers 200
with a `null` body, not 404. -/
theorem user_endpoints_expose_data (s : Store) (uid : Nat) :
    (getUsersHandler s).status = 200 ∧
    (∃ xs, (getUsersHandler s).body = JVal.jarr xs ∧ xs.length = s.users.length ∧
      ∀ u ∈ s.users, userToFields u ∈ xs) ∧
    (∀ u ∈ s.users, ("password", passwordScalar u.password) ∈ userToFields u) ∧
    (findUserByPk s uid = none → getUserHandler s uid = ⟨200, JVal.jnull⟩) := by
  refine ⟨rfl, ⟨s.users.map userToFields, rfl, by simp, ?_⟩, ?_, ?_⟩
  · intro u hu
    exact List.mem_map_of_mem userToFields hu
  · intro u _
    simp [userToFields]
  · intro h
    unfold getUserHandler
    rw [h]

/-- Claim C10 (witness): on the seed store the user list exposes Billy's
stored hash, and `GET /user/99` answers 200 with `null`. -/
theorem user_endpoints_expose_data_witness :
    (getUsersHandler billyStore).status = 200 ∧
    (∃ xs, (getUsersHandler billyStore).body = JVal.jarr xs ∧
      xs.length = billyStore.users.length ∧ userToFields billy ∈ xs) ∧
    ("password", passwordScalar billy.password) ∈ userToFields billy ∧
    getUserHandler billyStore 99 = ⟨200, JVal.jnull⟩ := by
  obtain ⟨h200, ⟨xs, hxs, hlen, hall⟩, hpw, hnull⟩ := user_endpoints_expose_data billyStore 99
  exact ⟨h200, ⟨xs, hxs, hlen, hall billy (by simp [billyStore])⟩,
         hpw billy (by simp [billyStore]), hnull rfl⟩

end ThreadApi
